import Mathlib

/-!
Verification of the Dashboard app (src/App.py): a shallow embedding of the
resample handler, the plot configurator and the GitHub import handler,
together with theorems settling the specified properties.

Conventions of the embedding:
  * a data frame (`Table`) is an ordered list of named columns; a numeric
    cell is an `Option Rat` (`none` is NaN), a text cell a `String`;
  * the timestamp parser applied to text cells (pandas.to_datetime with
    coercion) is an external-library call and is a parameter `parse`;
  * a resampling frequency is a bucket-index map on timestamps plus a label
    (in epoch seconds) per bucket index, labels strictly increasing in the
    index; the fixed-width epoch-aligned tokens (5S, 10S, 30S, T, H, D) are
    the instance `fixedWidth`;
  * a bucket aggregator (pandas agg over one bucket) is a parameter
    `aggFn : List (Option Rat) -> Option Rat`; `aggFirst` is the concrete
    first-value aggregation used by witnesses.
-/

set_option maxHeartbeats 1000000

namespace Dashboard

/-- A user-facing banner emitted by the app: st.success, st.error,
st.warning or st.info. -/
inductive Msg where
  | success (text : String)
  | errorMsg (text : String)
  | warn (text : String)
  | info (text : String)
deriving DecidableEq

/-- One column of a data frame: numeric (cells are rationals, `none` is NaN)
or text. -/
inductive ColData where
  | numeric (vals : List (Option Rat))
  | text (vals : List String)
deriving DecidableEq

/-- A data frame: ordered columns, each a name paired with its data. -/
structure Table where
  cols : List (String × ColData)
deriving DecidableEq

/-- Whether select_dtypes(include number) keeps this column. -/
def ColData.isNumeric : ColData → Bool
  | .numeric _ => true
  | .text _ => false

/-- The numeric cells of a column (empty for a text column). -/
def ColData.numVals : ColData → List (Option Rat)
  | .numeric vs => vs
  | .text _ => []

/-- Number of cells in a column. -/
def ColData.size : ColData → Nat
  | .numeric vs => vs.length
  | .text vs => vs.length

/-- Row count of a table (its first column length; all columns agree on a
well-formed frame). -/
def Table.rowCount (t : Table) : Nat :=
  match t.cols with
  | [] => 0
  | c :: _ => c.2.size

/-- All column names, in order (df.columns.tolist()). -/
def Table.allCols (t : Table) : List String := t.cols.map Prod.fst

/-- Names of the numeric columns, in order
(df.select_dtypes(include number).columns.tolist()). -/
def Table.numericCols (t : Table) : List String :=
  (t.cols.filter fun p => p.2.isNumeric).map Prod.fst

/-- Whether v seconds is representable as int64 nanoseconds (the pandas
Timestamp range): |v| * 10^9 at most 2^63 - 1, stated on the numerator and
denominator of v. to_datetime with coercion turns anything outside this
range into NaT. -/
def inTsRange (v : Rat) : Bool :=
  |v.num| * 1000000000 ≤ 9223372036854775807 * (v.den : Int)

/-- pandas.to_datetime on one numeric cell, unit seconds, coercing errors:
NaN and out-of-range values become NaT (`none`), other values denote
themselves as epoch seconds. -/
def numToTs (o : Option Rat) : Option Rat :=
  o.bind fun v => if inTsRange v then some v else none

/-- App.py lines 127-136: convert the chosen time column to timestamps,
numeric columns as epoch seconds, text columns through the ambient
timestamp parser, failures coerced to `none`. -/
def convertCol (parse : String → Option Rat) : ColData → List (Option Rat)
  | .numeric vs => vs.map numToTs
  | .text vs => vs.map parse

/-- A resampling frequency as pandas realises it: a bucket-index map on
timestamps and a label (in epoch seconds) for each bucket index, the labels
strictly increasing in the index. -/
structure FreqBuckets where
  idx : Rat → Int
  label : Int → Int
  label_strictMono : StrictMono label

/-- A fixed-width epoch-aligned frequency of w seconds (w > 0): the tokens
5S, 10S, 30S, T, H and D, whose resample bins all start at multiples of w
seconds since the epoch. The bucket of timestamp t is the floor of t / w. -/
def fixedWidth (w : Int) (hw : 0 < w) : FreqBuckets where
  idx := fun t => Int.fdiv t.num ((t.den : Int) * w)
  label := fun k => k * w
  label_strictMono := fun _ _ h => mul_lt_mul_of_pos_right h hw

/-- The 5-second frequency token 5S. -/
def freq5 : FreqBuckets := fixedWidth 5 (by norm_num)

/-- The (cell, timestamp) pairs of a column surviving the dropna on the
converted time column. -/
def keptPairs (conv vals : List (Option Rat)) : List (Option Rat × Rat) :=
  (vals.zip conv).filterMap fun p => p.2.map fun ts => (p.1, ts)

/-- The cells of a column that fall in frequency bucket k. -/
def bucketCells (freq : FreqBuckets) (conv vals : List (Option Rat)) (k : Int) :
    List (Option Rat) :=
  (keptPairs conv vals).filterMap fun q => if freq.idx q.2 = k then some q.1 else none

/-- First bucket index spanned by the kept timestamps. -/
def bucketLo (freq : FreqBuckets) (k0 : Rat) (krest : List Rat) : Int :=
  (krest.map freq.idx).foldl min (freq.idx k0)

/-- Last bucket index spanned by the kept timestamps. -/
def bucketHi (freq : FreqBuckets) (k0 : Rat) (krest : List Rat) : Int :=
  (krest.map freq.idx).foldl max (freq.idx k0)

/-- Number of buckets from the first to the last one spanned by the data,
empty buckets included: pandas resample emits one output row per bucket in
this closed range. -/
def spanCount (freq : FreqBuckets) (k0 : Rat) (krest : List Rat) : Nat :=
  (bucketHi freq k0 krest - bucketLo freq k0 krest).toNat + 1

/-- App.py lines 149-151: the numeric columns other than the chosen time
column itself, in their original order; these are what gets aggregated. -/
def aggregables (t : Table) (timeCol : String) : List (String × ColData) :=
  t.cols.filter fun p => p.2.isNumeric && p.1 != timeCol

/-- App.py lines 156-165, the successful branch of the resample handler:
one output row per bucket in the span; the time column holds the bucket
labels as integral epoch seconds and is placed first; every aggregable
column is reduced bucketwise by the aggregator. -/
def resampleCore (freq : FreqBuckets) (aggFn : List (Option Rat) → Option Rat)
    (conv : List (Option Rat)) (k0 : Rat) (krest : List Rat)
    (aggCols : List (String × ColData)) (timeCol : String) : Table :=
  ⟨(timeCol, ColData.numeric ((List.range (spanCount freq k0 krest)).map fun i : Nat =>
      some ((freq.label (bucketLo freq k0 krest + (i : Int)) : Rat)))) ::
    aggCols.map fun p => (p.1, ColData.numeric
      ((List.range (spanCount freq k0 krest)).map fun i : Nat =>
        aggFn (bucketCells freq conv p.2.numVals (bucketLo freq k0 krest + (i : Int)))))⟩

/-- Outcome of one resample click: an uncaught lookup failure (hits the
generic except branch), the all-rows-unconvertible error, the
no-numeric-columns error, or success; the Bool records whether the
partial-conversion warning was surfaced on the way. -/
inductive ResampleResult where
  | keyError
  | conversionError
  | noNumericColumns (warned : Bool)
  | ok (warned : Bool) (out : Table)
deriving DecidableEq

/-- App.py lines 121-165: the resample click handler for one table, time
column, frequency and bucket aggregator. -/
def resample (parse : String → Option Rat) (freq : FreqBuckets)
    (aggFn : List (Option Rat) → Option Rat) (t : Table) (timeCol : String) :
    ResampleResult :=
  match t.cols.lookup timeCol with
  | none => .keyError
  | some cd =>
    match (convertCol parse cd).reduceOption with
    | [] => .conversionError
    | k0 :: krest =>
      if (aggregables t timeCol).isEmpty then
        .noNumericColumns ((convertCol parse cd).any Option.isNone)
      else
        .ok ((convertCol parse cd).any Option.isNone)
          (resampleCore freq aggFn (convertCol parse cd) k0 krest
            (aggregables t timeCol) timeCol)

/-- The session state around one resample click: the loaded table, the
resampled table and the banners shown so far. -/
structure AppState where
  df : Option Table
  dfResampled : Option Table
  messages : List Msg
deriving DecidableEq

/-- Text of the partial-conversion warning (line 143). -/
def warnText (timeCol : String) : String :=
  "Some values in " ++ timeCol ++ " could not be converted and will be ignored."

/-- Text of the conversion error (line 140). -/
def convErrText (timeCol : String) : String :=
  "Column " ++ timeCol ++ " could not be converted to datetime format."

/-- Text of the no-numeric-columns error (line 154). -/
def noNumText : String := "No numeric columns found to resample."

/-- App.py lines 119-177 as a state transition: one resample click. On any
failure df_resampled stays None and an error banner is appended; on success
df_resampled is set and a success banner appended; the partial-conversion
warning precedes either. The success banner text is abbreviated (the code
interpolates the method and frequency into it). -/
def resampleStep (parse : String → Option Rat) (freq : FreqBuckets)
    (aggFn : List (Option Rat) → Option Rat) (timeCol : String)
    (s : AppState) : AppState :=
  match s.df with
  | none => s
  | some t =>
    match resample parse freq aggFn t timeCol with
    | .keyError =>
      { s with dfResampled := none,
               messages := s.messages ++ [Msg.errorMsg ("Error resampling data")] }
    | .conversionError =>
      { s with dfResampled := none,
               messages := s.messages ++ [Msg.errorMsg (convErrText timeCol)] }
    | .noNumericColumns w =>
      { s with dfResampled := none,
               messages := s.messages ++
                 (if w then [Msg.warn (warnText timeCol)] else []) ++
                 [Msg.errorMsg noNumText] }
    | .ok w out =>
      { s with dfResampled := some out,
               messages := s.messages ++
                 (if w then [Msg.warn (warnText timeCol)] else []) ++
                 [Msg.success ("Data resampled")] }

/-- The six plot types of the selector (line 193). -/
inductive PlotType where
  | scatter | line | bar | histogram | box | violin
deriving DecidableEq

/-- What the chart branch emitted: an overlay chart, a single chart of the
original table, an informational notice. -/
structure RenderResult where
  overlayChart : Bool
  originalChart : Bool
  infoNotice : Bool
deriving DecidableEq

/-- App.py lines 229-311: when the comparison overlay is requested and a
resampled table exists, a Line or Scatter plot yields the overlay chart and
any other plot type yields only the st.info notice (line 280) with no chart;
otherwise the single chart of the original table is rendered. -/
def renderPlot (pt : PlotType) (compareResampled hasResampled : Bool) : RenderResult :=
  if compareResampled && hasResampled then
    if pt = .line ∨ pt = .scatter then
      { overlayChart := true, originalChart := false, infoNotice := false }
    else
      { overlayChart := false, originalChart := false, infoNotice := true }
  else
    { overlayChart := false, originalChart := true, infoNotice := false }

/-- App.py lines 215-219: the X-axis candidate pool per plot type. -/
def xCandidates (t : Table) (pt : PlotType) : List String :=
  if pt = .scatter ∨ pt = .line ∨ pt = .bar ∨ pt = .box ∨ pt = .violin then
    t.allCols
  else if t.numericCols.isEmpty then t.allCols else t.numericCols

/-- App.py lines 221-227: the Y-axis candidate pool per plot type (`none`
when no Y selector is offered, as for Histogram). -/
def yCandidates (t : Table) (pt : PlotType) : Option (List String) :=
  if pt = .scatter ∨ pt = .line ∨ pt = .bar then
    some (if t.numericCols.isEmpty then t.allCols else t.numericCols)
  else if pt = .box ∨ pt = .violin then
    some (if t.numericCols.isEmpty then t.allCols else t.numericCols)
  else none

/-- Text of the GitHub success banner (line 58). -/
def okGithubText : String := "File loaded successfully from GitHub!"

/-- Python str.endswith, on the character sequences of the strings. -/
def endsWithStr (s suffix : String) : Bool :=
  suffix.data.isSuffixOf s.data

/-- App.py lines 47-60: the GitHub import handler. The fetch and the three
format decoders are external calls, passed as their outcomes. After a
successful fetch the URL extension selects a decoder; a URL matching none of
the three extensions decodes nothing, yet the success banner on line 58 runs
unconditionally after the if/elif chain. -/
def githubImport (url : String) (fetch : Except String Unit)
    (csvD xlsxD pqD : Except String Table) : List Msg × Option Table :=
  match fetch with
  | .error e => ([Msg.errorMsg ("Error loading from GitHub: " ++ e)], none)
  | .ok _ =>
    if endsWithStr url (".csv") then
      match csvD with
      | .error e => ([Msg.errorMsg ("Error loading from GitHub: " ++ e)], none)
      | .ok t => ([Msg.success okGithubText], some t)
    else if endsWithStr url (".xlsx") then
      match xlsxD with
      | .error e => ([Msg.errorMsg ("Error loading from GitHub: " ++ e)], none)
      | .ok t => ([Msg.success okGithubText], some t)
    else if endsWithStr url (".parquet") then
      match pqD with
      | .error e => ([Msg.errorMsg ("Error loading from GitHub: " ++ e)], none)
      | .ok t => ([Msg.success okGithubText], some t)
    else ([Msg.success okGithubText], none)

/-- App.py lines 354-355: the get-started prompt shows exactly when no
table is loaded. -/
def showsGetStarted (df : Option Table) : Bool := df.isNone

/-- Keep the elements of a list at the positions where the mask is true
(rows surviving a dropna). -/
def filterMask {α : Type} (mask : List Bool) (l : List α) : List α :=
  (l.zip mask).filterMap fun p => if p.2 then some p.1 else none

/-- Keep the rows of one column selected by the mask. -/
def ColData.keepRows (mask : List Bool) : ColData → ColData
  | .numeric vs => .numeric (filterMask mask vs)
  | .text vs => .text (filterMask mask vs)

/-- Keep the rows of a whole table selected by the mask (the dropna on the
converted time column, applied frame-wide). -/
def Table.keepRows (mask : List Bool) (t : Table) : Table :=
  ⟨t.cols.map fun p => (p.1, p.2.keepRows mask)⟩

/-- The dropna mask of a time column: true on rows whose conversion
succeeded. -/
def keepMask (parse : String → Option Rat) (cd : ColData) : List Bool :=
  (convertCol parse cd).map Option.isSome

/-- Modelled from the spec wording of the row-count property: the number of
distinct frequency buckets that actually contain data. Used to compare the
claimed row count with the one the code produces. -/
def specDistinctBuckets (freq : FreqBuckets) (ts : List Rat) : Nat :=
  ((ts.map freq.idx).dedup).length

/-- The pandas aggregation method first over one bucket: the first non-NaN
cell; an empty or all-NaN bucket yields NaN. -/
def aggFirst (cells : List (Option Rat)) : Option Rat :=
  cells.reduceOption.head?

/-- A timestamp parser rejecting every string (nothing in the fixture tables
below is a parseable date). -/
def parse0 : String → Option Rat := fun _ => none

/-- A timestamp parser recognising only the string a (as the epoch). -/
def parseAB : String → Option Rat := fun s => if s = ("a") then some 0 else none

/-- Fixture: epoch-second time column spanning buckets 0 and 2 of 5S,
leaving bucket 1 empty. -/
def tblC1 : Table :=
  ⟨[("ts", ColData.numeric [some 0, some 10]), ("v", ColData.numeric [some 1, some 2])]⟩

/-- What resampling tblC1 by 5S with mean produces: three rows, one per
bucket in the span, the middle one empty. -/
def outC1 : Table :=
  ⟨[("ts", ColData.numeric [some 0, some 5, some 10]),
    ("v", ColData.numeric [some 1, none, some 2])]⟩

/-! ### Helper lemmas -/

theorem foldl_min_le_init (l : List Int) (a : Int) : l.foldl min a ≤ a := by
  induction l generalizing a with
  | nil => exact le_refl a
  | cons x xs ih => exact le_trans (ih (min a x)) (min_le_left a x)

theorem foldl_min_le_mem {l : List Int} {x : Int} (hx : x ∈ l) (a : Int) :
    l.foldl min a ≤ x := by
  induction l generalizing a with
  | nil => cases hx
  | cons y ys ih =>
    rcases List.mem_cons.mp hx with h | h
    · subst h
      exact le_trans (foldl_min_le_init ys (min a x)) (min_le_right a x)
    · exact ih h (min a y)

theorem init_le_foldl_max (l : List Int) (a : Int) : a ≤ l.foldl max a := by
  induction l generalizing a with
  | nil => exact le_refl a
  | cons x xs ih => exact le_trans (le_max_left a x) (ih (max a x))

theorem mem_le_foldl_max {l : List Int} {x : Int} (hx : x ∈ l) (a : Int) :
    x ≤ l.foldl max a := by
  induction l generalizing a with
  | nil => cases hx
  | cons y ys ih =>
    rcases List.mem_cons.mp hx with h | h
    · subst h
      exact le_trans (le_max_right a x) (init_le_foldl_max ys (max a x))
    · exact ih h (max a y)

theorem bucketLo_le (freq : FreqBuckets) (k0 : Rat) (krest : List Rat) {x : Rat}
    (hx : x ∈ k0 :: krest) : bucketLo freq k0 krest ≤ freq.idx x := by
  rcases List.mem_cons.mp hx with h | h
  · subst h
    exact foldl_min_le_init _ _
  · exact foldl_min_le_mem (List.mem_map_of_mem freq.idx h) _

theorem le_bucketHi (freq : FreqBuckets) (k0 : Rat) (krest : List Rat) {x : Rat}
    (hx : x ∈ k0 :: krest) : freq.idx x ≤ bucketHi freq k0 krest := by
  rcases List.mem_cons.mp hx with h | h
  · subst h
    exact init_le_foldl_max _ _
  · exact mem_le_foldl_max (List.mem_map_of_mem freq.idx h) _

theorem bucketLo_le_bucketHi (freq : FreqBuckets) (k0 : Rat) (krest : List Rat) :
    bucketLo freq k0 krest ≤ bucketHi freq k0 krest :=
  le_trans (bucketLo_le freq k0 krest (List.mem_cons_self k0 krest))
    (le_bucketHi freq k0 krest (List.mem_cons_self k0 krest))

theorem reduceOption_nil_of_all_none {α : Type} {l : List (Option α)}
    (h : ∀ o ∈ l, o = none) : l.reduceOption = [] := by
  induction l with
  | nil => rfl
  | cons o os ih =>
    have ho := h o (List.mem_cons_self o os)
    subst ho
    simp [List.reduceOption_cons_of_none]
    exact ih fun x hx => h x (List.mem_cons_of_mem _ hx)

theorem reduceOption_map_some {α : Type} (l : List α) :
    (l.map some).reduceOption = l := by
  induction l with
  | nil => rfl
  | cons x xs ih => simp [List.reduceOption_cons_of_some, ih]

theorem any_isNone_map_some {α : Type} (l : List α) :
    (l.map some).any Option.isNone = false := by
  induction l with
  | nil => rfl
  | cons x xs ih => simp [ih]

/-- Inversion of the successful resample branch: a `.ok` outcome determines
the converted column, the kept timestamps, the aggregable columns, the
warning flag and the output table. -/
theorem resample_ok_inv {parse : String → Option Rat} {freq : FreqBuckets}
    {aggFn : List (Option Rat) → Option Rat} {t : Table} {timeCol : String}
    {w : Bool} {out : Table}
    (hok : resample parse freq aggFn t timeCol = .ok w out) :
    ∃ cd k0 krest, t.cols.lookup timeCol = some cd ∧
      (convertCol parse cd).reduceOption = k0 :: krest ∧
      (aggregables t timeCol).isEmpty = false ∧
      w = (convertCol parse cd).any Option.isNone ∧
      out = resampleCore freq aggFn (convertCol parse cd) k0 krest
              (aggregables t timeCol) timeCol := by
  unfold resample at hok
  split at hok
  · cases hok
  next cd hl =>
    split at hok
    · cases hok
    next k0 krest hr =>
      split at hok
      · cases hok
      next he =>
        injection hok with hw hout
        exact ⟨cd, k0, krest, hl, hr, Bool.not_eq_true _ ▸ by simpa using he,
          hw.symm, hout.symm⟩

theorem resampleCore_rowCount (freq : FreqBuckets)
    (aggFn : List (Option Rat) → Option Rat) (conv : List (Option Rat))
    (k0 : Rat) (krest : List Rat) (aggCols : List (String × ColData))
    (timeCol : String) :
    (resampleCore freq aggFn conv k0 krest aggCols timeCol).rowCount =
      spanCount freq k0 krest := by
  simp [resampleCore, Table.rowCount, ColData.size]

theorem resampleCore_names (freq : FreqBuckets)
    (aggFn : List (Option Rat) → Option Rat) (conv : List (Option Rat))
    (k0 : Rat) (krest : List Rat) (aggCols : List (String × ColData))
    (timeCol : String) :
    (resampleCore freq aggFn conv k0 krest aggCols timeCol).cols.map Prod.fst =
      timeCol :: aggCols.map Prod.fst := by
  simp [resampleCore]

theorem resampleCore_head (freq : FreqBuckets)
    (aggFn : List (Option Rat) → Option Rat) (conv : List (Option Rat))
    (k0 : Rat) (krest : List Rat) (aggCols : List (String × ColData))
    (timeCol : String) :
    (resampleCore freq aggFn conv k0 krest aggCols timeCol).cols.head?.map Prod.snd =
      some (ColData.numeric
        (((List.range (spanCount freq k0 krest)).map fun i : Nat =>
          freq.label (bucketLo freq k0 krest + (i : Int))).map
            fun z : Int => some ((z : Rat)))) := by
  simp [resampleCore, List.map_map]

theorem labels_pairwise (freq : FreqBuckets) (lo : Int) (n : Nat) :
    ((List.range n).map fun i : Nat => freq.label (lo + (i : Int))).Pairwise (· < ·) := by
  refine List.Pairwise.map _ ?_ (List.pairwise_lt_range n)
  intro a b hab
  exact freq.label_strictMono (by exact_mod_cast add_lt_add_left (Int.ofNat_lt.mpr hab) lo)

theorem distinct_le_span (freq : FreqBuckets) (k0 : Rat) (krest : List Rat) :
    specDistinctBuckets freq (k0 :: krest) ≤ spanCount freq k0 krest := by
  have hsub : ((k0 :: krest).map freq.idx).toFinset ⊆
      Finset.Icc (bucketLo freq k0 krest) (bucketHi freq k0 krest) := by
    intro x hx
    rcases List.mem_map.mp (List.mem_toFinset.mp hx) with ⟨ts, hts, rfl⟩
    exact Finset.mem_Icc.mpr ⟨bucketLo_le freq k0 krest hts, le_bucketHi freq k0 krest hts⟩
  have hcard := Finset.card_le_card hsub
  rw [List.card_toFinset, Int.card_Icc] at hcard
  have hle := bucketLo_le_bucketHi freq k0 krest
  unfold specDistinctBuckets spanCount
  omega

/-! ### Row filtering commutes with resampling -/

theorem filterMask_nil_left {α : Type} (l : List α) : filterMask [] l = [] := by
  cases l <;> rfl

theorem filterMask_nil_right {α : Type} (mask : List Bool) :
    filterMask mask ([] : List α) = [] := rfl

theorem filterMask_cons {α : Type} (b : Bool) (bs : List Bool) (x : α) (xs : List α) :
    filterMask (b :: bs) (x :: xs) =
      if b then x :: filterMask bs xs else filterMask bs xs := by
  cases b <;> simp [filterMask]

theorem map_filterMask {α β : Type} (f : α → β) (mask : List Bool) (l : List α) :
    (filterMask mask l).map f = filterMask mask (l.map f) := by
  induction l generalizing mask with
  | nil => simp [filterMask_nil_right]
  | cons x xs ih =>
    cases mask with
    | nil => rw [filterMask_nil_left]; rfl
    | cons b bs =>
      cases b <;> simp [filterMask_cons, ih]

theorem convertCol_keepRows (parse : String → Option Rat) (mask : List Bool)
    (cd : ColData) :
    convertCol parse (cd.keepRows mask) = filterMask mask (convertCol parse cd) := by
  cases cd <;> simp [convertCol, ColData.keepRows, map_filterMask]

theorem filterMask_isSome_self (conv : List (Option Rat)) :
    filterMask (conv.map Option.isSome) conv = conv.reduceOption.map some := by
  induction conv with
  | nil => rfl
  | cons o os ih =>
    cases o with
    | none => simpa [filterMask_cons, List.reduceOption_cons_of_none] using ih
    | some v => simp [filterMask_cons, List.reduceOption_cons_of_some, ih]

theorem keptPairs_nil_left (vals : List (Option Rat)) : keptPairs [] vals = [] := by
  cases vals <;> rfl

theorem keptPairs_nil_right (conv : List (Option Rat)) : keptPairs conv [] = [] := rfl

theorem keptPairs_cons_none (os : List (Option Rat)) (v : Option Rat)
    (vs : List (Option Rat)) :
    keptPairs (none :: os) (v :: vs) = keptPairs os vs := by
  simp [keptPairs]

theorem keptPairs_cons_some (ts : Rat) (os : List (Option Rat)) (v : Option Rat)
    (vs : List (Option Rat)) :
    keptPairs (some ts :: os) (v :: vs) = (v, ts) :: keptPairs os vs := by
  simp [keptPairs]

theorem keptPairs_filterMask (conv vals : List (Option Rat)) :
    keptPairs (filterMask (conv.map Option.isSome) conv)
      (filterMask (conv.map Option.isSome) vals) = keptPairs conv vals := by
  induction conv generalizing vals with
  | nil => simp [filterMask_nil_left, keptPairs_nil_left]
  | cons o os ih =>
    cases vals with
    | nil =>
      rw [filterMask_nil_right, keptPairs_nil_right, keptPairs_nil_right]
    | cons v vs =>
      cases o with
      | none =>
        rw [List.map_cons, Option.isSome_none, filterMask_cons, filterMask_cons]
        simpa [keptPairs_cons_none] using ih vs
      | some ts =>
        rw [List.map_cons, Option.isSome_some, filterMask_cons, filterMask_cons]
        simpa [keptPairs_cons_some] using ih vs

theorem bucketCells_filterMask (freq : FreqBuckets) (conv vals : List (Option Rat))
    (k : Int) :
    bucketCells freq (filterMask (conv.map Option.isSome) conv)
      (filterMask (conv.map Option.isSome) vals) k = bucketCells freq conv vals k := by
  unfold bucketCells
  rw [keptPairs_filterMask]

theorem lookup_map_snd (f : ColData → ColData) (cols : List (String × ColData))
    (a : String) :
    (cols.map fun p => (p.1, f p.2)).lookup a = (cols.lookup a).map f := by
  induction cols with
  | nil => rfl
  | cons p ps ih =>
    obtain ⟨k, v⟩ := p
    by_cases h : a == k
    · simp [List.lookup, h]
    · simp only [List.map_cons, List.lookup, h]
      exact ih

theorem isNumeric_keepRows (mask : List Bool) (cd : ColData) :
    (cd.keepRows mask).isNumeric = cd.isNumeric := by
  cases cd <;> rfl

theorem numVals_keepRows (mask : List Bool) (cd : ColData) :
    (cd.keepRows mask).numVals = filterMask mask cd.numVals := by
  cases cd with
  | numeric vs => rfl
  | text vs => rw [ColData.keepRows, ColData.numVals, ColData.numVals, filterMask_nil_right]

theorem aggregables_keepRows (mask : List Bool) (t : Table) (timeCol : String) :
    aggregables (t.keepRows mask) timeCol =
      (aggregables t timeCol).map fun p => (p.1, p.2.keepRows mask) := by
  unfold aggregables Table.keepRows
  rw [List.filter_map]
  congr 1
  apply List.filter_congr
  intro p _
  simp [Function.comp, isNumeric_keepRows]

/-- Resampling the table with the failing rows already dropped succeeds with
no warning and the very same output table. -/
theorem resample_keepRows (parse : String → Option Rat) (freq : FreqBuckets)
    (aggFn : List (Option Rat) → Option Rat) (t : Table) (timeCol : String)
    (cd : ColData) (k0 : Rat) (krest : List Rat)
    (hlook : t.cols.lookup timeCol = some cd)
    (hr : (convertCol parse cd).reduceOption = k0 :: krest)
    (hagg : (aggregables t timeCol).isEmpty = false) :
    resample parse freq aggFn (t.keepRows (keepMask parse cd)) timeCol =
      .ok false (resampleCore freq aggFn (convertCol parse cd) k0 krest
        (aggregables t timeCol) timeCol) := by
  have hlook2 : (t.keepRows (keepMask parse cd)).cols.lookup timeCol =
      some (cd.keepRows (keepMask parse cd)) := by
    show ((t.cols.map fun p => (p.1, p.2.keepRows (keepMask parse cd))).lookup timeCol) = _
    rw [lookup_map_snd (ColData.keepRows (keepMask parse cd)) t.cols timeCol, hlook]
    rfl
  have hconv : convertCol parse (cd.keepRows (keepMask parse cd)) =
      (k0 :: krest).map some := by
    rw [convertCol_keepRows]
    show filterMask ((convertCol parse cd).map Option.isSome) (convertCol parse cd) = _
    rw [filterMask_isSome_self, hr]
  have hred2 : (convertCol parse (cd.keepRows (keepMask parse cd))).reduceOption =
      k0 :: krest := by
    rw [hconv, reduceOption_map_some]
  have hany2 : (convertCol parse (cd.keepRows (keepMask parse cd))).any Option.isNone =
      false := by
    rw [hconv, any_isNone_map_some]
  have haggeq : aggregables (t.keepRows (keepMask parse cd)) timeCol =
      (aggregables t timeCol).map fun p => (p.1, p.2.keepRows (keepMask parse cd)) :=
    aggregables_keepRows (keepMask parse cd) t timeCol
  have hie : (aggregables (t.keepRows (keepMask parse cd)) timeCol).isEmpty = false := by
    rw [haggeq]
    cases h : aggregables t timeCol with
    | nil => rw [h] at hagg; cases hagg
    | cons a as => rfl
  have hcore : resampleCore freq aggFn
      (convertCol parse (cd.keepRows (keepMask parse cd))) k0 krest
      (aggregables (t.keepRows (keepMask parse cd)) timeCol) timeCol =
      resampleCore freq aggFn (convertCol parse cd) k0 krest
        (aggregables t timeCol) timeCol := by
    rw [haggeq]
    unfold resampleCore
    rw [List.map_map]
    refine congrArg Table.mk (congrArg₂ List.cons rfl ?_)
    apply List.map_congr_left
    intro p _
    have hbc : ∀ k : Int, bucketCells freq
        (convertCol parse (cd.keepRows (keepMask parse cd)))
        ((p.2.keepRows (keepMask parse cd)).numVals) k =
        bucketCells freq (convertCol parse cd) p.2.numVals k := by
      intro k
      rw [numVals_keepRows, convertCol_keepRows]
      exact bucketCells_filterMask freq (convertCol parse cd) p.2.numVals k
    simp only [Function.comp_apply]
    exact congrArg (fun vs => (p.1, ColData.numeric vs))
      (List.map_congr_left fun i _ => congrArg aggFn (hbc _))
  unfold resample
  simp only [hlook2, hred2, hie, hany2, hcore]
  simp

/-! ### Fixtures for witnesses and counterexamples -/

/-- Fixture: text time column where only the first row parses, plus one
numeric column. -/
def tblC7 : Table :=
  ⟨[("t", ColData.text ["a", "b"]), ("v", ColData.numeric [some 1, some 2])]⟩

/-- Fixture: text time column where only the first row parses and no other
column at all. -/
def tblC7c : Table := ⟨[("t", ColData.text ["a", "b"])]⟩

/-- Fixture: text time column where nothing parses, plus one numeric
column. -/
def tblC3 : Table := ⟨[("t", ColData.text ["x"]), ("v", ColData.numeric [some 1])]⟩

/-- Session state with tblC3 loaded. -/
def stC3 : AppState := ⟨some tblC3, none, []⟩

/-- Fixture: the only numeric column is the time column itself. -/
def tblC4 : Table := ⟨[("t", ColData.numeric [some 0])]⟩

/-- Session state with tblC4 loaded. -/
def stC4 : AppState := ⟨some tblC4, none, []⟩

/-- Fixture: a table with no numeric column at all. -/
def tblText : Table := ⟨[("name", ColData.text ["x"])]⟩

/-- Fixture: a table with one numeric and one text column. -/
def tblNum : Table := ⟨[("n", ColData.numeric [some 1]), ("s", ColData.text ["x"])]⟩

/-! ### Claim C1 -/

/-- Claim C1, counterexample: with time column ts holding epoch seconds 0
and 10 (both of which convert), frequency 5S and the first aggregation, the
resample output has three rows (buckets 0, 5 and 10, the middle one empty):
more than the two input rows, and more than the two distinct buckets that
contain data. The claimed conjunction is false at this input. -/
theorem c1_counterexample :
    resample parse0 freq5 aggFirst tblC1 ("ts") = .ok false outC1 ∧
    (∀ o ∈ convertCol parse0 (ColData.numeric [some 0, some 10]), o.isSome = true) ∧
    tblC1.rowCount = 2 ∧ outC1.rowCount = 3 ∧
    specDistinctBuckets freq5 [0, 10] = 2 ∧
    ¬(outC1.rowCount ≤ tblC1.rowCount ∧
      outC1.rowCount = specDistinctBuckets freq5 [0, 10]) := by
  decide

/-- Claim C1, amended: a successful resample has one row per frequency
bucket from the first through the last bucket spanned by the converted
timestamps, empty buckets included; this count is at least (not at most)
the number of distinct buckets containing data, and can exceed the original
row count. -/
theorem c1_row_count_equals_bucket_span (parse : String → Option Rat)
    (freq : FreqBuckets) (aggFn : List (Option Rat) → Option Rat) (t : Table)
    (timeCol : String) (w : Bool) (out : Table)
    (hok : resample parse freq aggFn t timeCol = .ok w out) :
    ∃ cd k0 krest,
      t.cols.lookup timeCol = some cd ∧
      (convertCol parse cd).reduceOption = k0 :: krest ∧
      out.rowCount = spanCount freq k0 krest ∧
      specDistinctBuckets freq (k0 :: krest) ≤ out.rowCount := by
  obtain ⟨cd, k0, krest, hl, hr, _, _, hout⟩ := resample_ok_inv hok
  subst hout
  refine ⟨cd, k0, krest, hl, hr,
    resampleCore_rowCount freq aggFn (convertCol parse cd) k0 krest
      (aggregables t timeCol) timeCol, ?_⟩
  rw [resampleCore_rowCount]
  exact distinct_le_span freq k0 krest

/-- Witness for C1 at the concrete fixture. -/
theorem c1_row_count_equals_bucket_span_witness :
    ∃ cd k0 krest,
      tblC1.cols.lookup ("ts") = some cd ∧
      (convertCol parse0 cd).reduceOption = k0 :: krest ∧
      outC1.rowCount = spanCount freq5 k0 krest ∧
      specDistinctBuckets freq5 (k0 :: krest) ≤ outC1.rowCount :=
  c1_row_count_equals_bucket_span parse0 freq5 aggFirst tblC1 ("ts") false outC1 (by decide)

/-! ### Claim C2 -/

/-- Claim C2, counterexample: requesting the comparison overlay with plot
type Bar and a resampled table present yields only the informational notice;
no chart of the original table is rendered, contrary to the claim. -/
theorem c2_counterexample :
    renderPlot .bar true true =
      { overlayChart := false, originalChart := false, infoNotice := true } ∧
    (renderPlot .bar true true).originalChart = false := by
  decide

/-- Claim C2, amended: with the comparison overlay requested and a
resampled table present, any plot type other than Line and Scatter produces
no overlay chart and no chart at all: only the informational notice. -/
theorem c2_overlay_fallback_notice_only (pt : PlotType)
    (h1 : pt ≠ .line) (h2 : pt ≠ .scatter) :
    renderPlot pt true true =
      { overlayChart := false, originalChart := false, infoNotice := true } := by
  cases pt
  · exact absurd rfl h2
  · exact absurd rfl h1
  · rfl
  · rfl
  · rfl
  · rfl

/-- Witness for C2 at plot type Bar. -/
theorem c2_overlay_fallback_notice_only_witness :
    renderPlot .bar true true =
      { overlayChart := false, originalChart := false, infoNotice := true } :=
  c2_overlay_fallback_notice_only .bar (by decide) (by decide)

/-! ### Claim C3 -/

/-- Claim C3: when every row of the chosen time column fails timestamp
conversion, the resample click fails with the conversion error: the error
banner is shown and no resampled table is produced. -/
theorem c3_all_rows_unconvertible_errors (parse : String → Option Rat)
    (freq : FreqBuckets) (aggFn : List (Option Rat) → Option Rat)
    (timeCol : String) (s : AppState) (t : Table) (cd : ColData)
    (hdf : s.df = some t)
    (hlook : t.cols.lookup timeCol = some cd)
    (hfail : ∀ o ∈ convertCol parse cd, o = none) :
    resample parse freq aggFn t timeCol = .conversionError ∧
    (resampleStep parse freq aggFn timeCol s).dfResampled = none ∧
    Msg.errorMsg (convErrText timeCol) ∈
      (resampleStep parse freq aggFn timeCol s).messages := by
  have hred : (convertCol parse cd).reduceOption = [] :=
    reduceOption_nil_of_all_none hfail
  have hres : resample parse freq aggFn t timeCol = .conversionError := by
    unfold resample
    simp only [hlook, hred]
  refine ⟨hres, ?_, ?_⟩ <;> simp [resampleStep, hdf, hres]

/-- Witness for C3 at the concrete fixture. -/
theorem c3_all_rows_unconvertible_errors_witness :
    resample parse0 freq5 aggFirst tblC3 ("t") = .conversionError ∧
    (resampleStep parse0 freq5 aggFirst ("t") stC3).dfResampled = none ∧
    Msg.errorMsg (convErrText ("t")) ∈
      (resampleStep parse0 freq5 aggFirst ("t") stC3).messages :=
  c3_all_rows_unconvertible_errors parse0 freq5 aggFirst ("t") stC3 tblC3
    (ColData.text ["x"]) (by decide) (by decide) (by decide)

/-! ### Claim C4 -/

/-- Claim C4: when, after excluding non-numeric columns and the time column
itself, nothing remains to aggregate, the resample click fails with the
no-numeric-columns error: the error banner is shown and no resampled table
is produced. -/
theorem c4_no_aggregable_columns_errors (parse : String → Option Rat)
    (freq : FreqBuckets) (aggFn : List (Option Rat) → Option Rat)
    (timeCol : String) (s : AppState) (t : Table) (cd : ColData)
    (hdf : s.df = some t)
    (hlook : t.cols.lookup timeCol = some cd)
    (hne : (convertCol parse cd).reduceOption ≠ [])
    (hagg : aggregables t timeCol = []) :
    resample parse freq aggFn t timeCol =
      .noNumericColumns ((convertCol parse cd).any Option.isNone) ∧
    (resampleStep parse freq aggFn timeCol s).dfResampled = none ∧
    Msg.errorMsg noNumText ∈ (resampleStep parse freq aggFn timeCol s).messages := by
  obtain ⟨k0, krest, hr⟩ : ∃ k0 krest,
      (convertCol parse cd).reduceOption = k0 :: krest := by
    cases h : (convertCol parse cd).reduceOption with
    | nil => exact absurd h hne
    | cons a b => exact ⟨a, b, rfl⟩
  have hres : resample parse freq aggFn t timeCol =
      .noNumericColumns ((convertCol parse cd).any Option.isNone) := by
    unfold resample
    simp only [hlook, hr, hagg]
    rfl
  refine ⟨hres, ?_, ?_⟩ <;> simp [resampleStep, hdf, hres]

/-- Witness for C4 at the concrete fixture (the only numeric column is the
time column itself). -/
theorem c4_no_aggregable_columns_errors_witness :
    resample parse0 freq5 aggFirst tblC4 ("t") =
      .noNumericColumns ((convertCol parse0 (ColData.numeric [some 0])).any Option.isNone) ∧
    (resampleStep parse0 freq5 aggFirst ("t") stC4).dfResampled = none ∧
    Msg.errorMsg noNumText ∈ (resampleStep parse0 freq5 aggFirst ("t") stC4).messages :=
  c4_no_aggregable_columns_errors parse0 freq5 aggFirst ("t") stC4 tblC4
    (ColData.numeric [some 0]) (by decide) (by decide) (by decide) (by decide)

/-! ### Claim C5 -/

/-- Claim C5: a successful resample puts the time column first, holding
integral epoch-second values, followed by the aggregated numeric columns in
their original input order (they form a sublist of the input column
order). -/
theorem c5_output_column_layout (parse : String → Option Rat)
    (freq : FreqBuckets) (aggFn : List (Option Rat) → Option Rat) (t : Table)
    (timeCol : String) (w : Bool) (out : Table)
    (hok : resample parse freq aggFn t timeCol = .ok w out) :
    out.cols.map Prod.fst = timeCol :: (aggregables t timeCol).map Prod.fst ∧
    ((aggregables t timeCol).map Prod.fst).Sublist (t.cols.map Prod.fst) ∧
    ∃ zs : List Int, out.cols.head?.map Prod.snd =
      some (ColData.numeric (zs.map fun z : Int => some ((z : Rat)))) := by
  obtain ⟨cd, k0, krest, _, _, _, _, hout⟩ := resample_ok_inv hok
  subst hout
  refine ⟨resampleCore_names freq aggFn (convertCol parse cd) k0 krest
      (aggregables t timeCol) timeCol, ?_, ?_⟩
  · exact (List.filter_sublist t.cols).map Prod.fst
  · exact ⟨_, resampleCore_head freq aggFn (convertCol parse cd) k0 krest
      (aggregables t timeCol) timeCol⟩

/-- Witness for C5 at the concrete fixture. -/
theorem c5_output_column_layout_witness :
    outC1.cols.map Prod.fst = ("ts") :: (aggregables tblC1 ("ts")).map Prod.fst ∧
    ((aggregables tblC1 ("ts")).map Prod.fst).Sublist (tblC1.cols.map Prod.fst) ∧
    ∃ zs : List Int, outC1.cols.head?.map Prod.snd =
      some (ColData.numeric (zs.map fun z : Int => some ((z : Rat)))) :=
  c5_output_column_layout parse0 freq5 aggFirst tblC1 ("ts") false outC1 (by decide)

/-! ### Claim C6 -/

/-- Claim C6: the time column of a successful resample, read as epoch-second
integers, is strictly increasing row by row (hence non-decreasing, and
strictly increasing in bucket index). -/
theorem c6_time_column_strictly_increasing (parse : String → Option Rat)
    (freq : FreqBuckets) (aggFn : List (Option Rat) → Option Rat) (t : Table)
    (timeCol : String) (w : Bool) (out : Table)
    (hok : resample parse freq aggFn t timeCol = .ok w out) :
    ∃ zs : List Int,
      out.cols.head?.map Prod.snd =
        some (ColData.numeric (zs.map fun z : Int => some ((z : Rat)))) ∧
      zs.Pairwise (· < ·) := by
  obtain ⟨cd, k0, krest, _, _, _, _, hout⟩ := resample_ok_inv hok
  subst hout
  exact ⟨_, resampleCore_head freq aggFn (convertCol parse cd) k0 krest
      (aggregables t timeCol) timeCol,
    labels_pairwise freq (bucketLo freq k0 krest) (spanCount freq k0 krest)⟩

/-- Witness for C6 at the concrete fixture. -/
theorem c6_time_column_strictly_increasing_witness :
    ∃ zs : List Int,
      outC1.cols.head?.map Prod.snd =
        some (ColData.numeric (zs.map fun z : Int => some ((z : Rat)))) ∧
      zs.Pairwise (· < ·) :=
  c6_time_column_strictly_increasing parse0 freq5 aggFirst tblC1 ("ts") false outC1
    (by decide)

/-! ### Claim C7 -/

/-- Claim C7, counterexample: in tblC7c some but not all rows of the time
column fail conversion, yet resampling fails with the no-numeric-columns
error instead of continuing, because the only column is the time column. -/
theorem c7_counterexample :
    (∃ o ∈ convertCol parseAB (ColData.text ["a", "b"]), o = none) ∧
    (convertCol parseAB (ColData.text ["a", "b"])).reduceOption ≠ [] ∧
    resample parseAB freq5 aggFirst tblC7c ("t") = .noNumericColumns true := by
  decide

/-- Claim C7, amended: when some but not all rows fail conversion and at
least one aggregable column remains, the resample succeeds with the warning
surfaced, and its output is exactly the output of resampling the table with
the failing rows dropped (which then succeeds without a warning): the
failing rows, and only they, are dropped. -/
theorem c7_partial_failure_drops_rows (parse : String → Option Rat)
    (freq : FreqBuckets) (aggFn : List (Option Rat) → Option Rat) (t : Table)
    (timeCol : String) (cd : ColData)
    (hlook : t.cols.lookup timeCol = some cd)
    (hsome : ∃ o ∈ convertCol parse cd, o = none)
    (hne : (convertCol parse cd).reduceOption ≠ [])
    (hagg : (aggregables t timeCol).isEmpty = false) :
    ∃ out, resample parse freq aggFn t timeCol = .ok true out ∧
      resample parse freq aggFn (t.keepRows (keepMask parse cd)) timeCol =
        .ok false out := by
  obtain ⟨k0, krest, hr⟩ : ∃ k0 krest,
      (convertCol parse cd).reduceOption = k0 :: krest := by
    cases h : (convertCol parse cd).reduceOption with
    | nil => exact absurd h hne
    | cons a b => exact ⟨a, b, rfl⟩
  have hany : (convertCol parse cd).any Option.isNone = true := by
    obtain ⟨o, ho, hnone⟩ := hsome
    exact List.any_eq_true.mpr ⟨o, ho, by rw [hnone]; rfl⟩
  refine ⟨resampleCore freq aggFn (convertCol parse cd) k0 krest
    (aggregables t timeCol) timeCol, ?_, ?_⟩
  · unfold resample
    simp only [hlook, hr, hagg, hany]
    simp
  · exact resample_keepRows parse freq aggFn t timeCol cd k0 krest hlook hr hagg

/-- Witness for C7 at the concrete fixture. -/
theorem c7_partial_failure_drops_rows_witness :
    ∃ out, resample parseAB freq5 aggFirst tblC7 ("t") = .ok true out ∧
      resample parseAB freq5 aggFirst
        (tblC7.keepRows (keepMask parseAB (ColData.text ["a", "b"]))) ("t") =
        .ok false out :=
  c7_partial_failure_drops_rows parseAB freq5 aggFirst tblC7 ("t")
    (ColData.text ["a", "b"]) (by decide) (by decide) (by decide) (by decide)

/-! ### Claim C8 -/

/-- Claim C8, counterexample: in a table whose columns are all non-numeric,
the Histogram X pool and the Scatter Y pool are all columns, not the (empty)
numeric-only pool the claim prescribes. -/
theorem c8_counterexample :
    tblText.numericCols = [] ∧
    xCandidates tblText .histogram = [("name")] ∧
    xCandidates tblText .histogram ≠ tblText.numericCols ∧
    yCandidates tblText .scatter = some [("name")] ∧
    yCandidates tblText .scatter ≠ some tblText.numericCols := by
  decide

/-- Claim C8, amended: when the table has at least one numeric column, the
axis pools are exactly as claimed (X all columns except numeric-only for
Histogram; Y numeric-only except none for Histogram); when it has no
numeric column, every pool falls back to all columns. -/
theorem c8_axis_candidate_pools (t : Table) (pt : PlotType) :
    (t.numericCols ≠ [] →
      xCandidates t pt = (if pt = .histogram then t.numericCols else t.allCols) ∧
      yCandidates t pt = (if pt = .histogram then none else some t.numericCols)) ∧
    (t.numericCols = [] →
      xCandidates t pt = t.allCols ∧
      yCandidates t pt = (if pt = .histogram then none else some t.allCols)) := by
  constructor
  · intro h
    have hne : t.numericCols.isEmpty = false := by
      cases hcols : t.numericCols with
      | nil => exact absurd hcols h
      | cons a as => rfl
    cases pt <;> simp [xCandidates, yCandidates, hne]
  · intro h
    have he : t.numericCols.isEmpty = true := by rw [h]; rfl
    cases pt <;> simp [xCandidates, yCandidates, he]

/-- Witness for C8 at the concrete fixture with a numeric column. -/
theorem c8_axis_candidate_pools_witness :
    tblNum.numericCols ≠ [] ∧
    (xCandidates tblNum .histogram =
      (if PlotType.histogram = .histogram then tblNum.numericCols else tblNum.allCols) ∧
    yCandidates tblNum .histogram =
      (if PlotType.histogram = .histogram then none else some tblNum.numericCols)) :=
  ⟨by decide, (c8_axis_candidate_pools tblNum .histogram).1 (by decide)⟩

/-! ### Claim C9 -/

/-- Claim C9: one resample click never changes the loaded table; whatever
the outcome, the df field of the session state is preserved (the handler
works on a copy and only adds the resampled table and banners). -/
theorem c9_original_table_unchanged (parse : String → Option Rat)
    (freq : FreqBuckets) (aggFn : List (Option Rat) → Option Rat)
    (timeCol : String) (s : AppState) :
    (resampleStep parse freq aggFn timeCol s).df = s.df := by
  cases hdf : s.df with
  | none => simp [resampleStep, hdf]
  | some t =>
    cases hr : resample parse freq aggFn t timeCol <;>
      simp [resampleStep, hdf, hr]

/-! ### Claim C10 -/

/-- Claim C10: a GitHub URL whose GET succeeds but whose path ends in none
of .csv, .xlsx, .parquet reports the success banner while loading no table,
and the app still shows the get-started prompt. -/
theorem c10_github_import_silent_no_table (url : String)
    (csvD xlsxD pqD : Except String Table)
    (h1 : endsWithStr url (".csv") = false)
    (h2 : endsWithStr url (".xlsx") = false)
    (h3 : endsWithStr url (".parquet") = false) :
    githubImport url (Except.ok ()) csvD xlsxD pqD =
      ([Msg.success okGithubText], none) ∧
    showsGetStarted (githubImport url (Except.ok ()) csvD xlsxD pqD).2 = true := by
  have hg : githubImport url (Except.ok ()) csvD xlsxD pqD =
      ([Msg.success okGithubText], none) := by
    unfold githubImport
    simp [h1, h2, h3]
  exact ⟨hg, by rw [hg]; rfl⟩

/-- Witness for C10 at a concrete URL with an unrecognised extension. -/
theorem c10_github_import_silent_no_table_witness :
    githubImport ("https://raw.githubusercontent.com/u/r/main/data.txt")
      (Except.ok ()) (Except.error ("e")) (Except.error ("e")) (Except.error ("e")) =
      ([Msg.success okGithubText], none) ∧
    showsGetStarted (githubImport ("https://raw.githubusercontent.com/u/r/main/data.txt")
      (Except.ok ()) (Except.error ("e")) (Except.error ("e")) (Except.error ("e"))).2 = true :=
  c10_github_import_silent_no_table ("https://raw.githubusercontent.com/u/r/main/data.txt")
    (Except.error ("e")) (Except.error ("e")) (Except.error ("e"))
    (by decide) (by decide) (by decide)

end Dashboard
